import Mathlib

/-!
# esp32-indoor-monitor: a shallow embedding of `src/main.cpp`

The firmware is one translation unit (`src/main.cpp`).  Its global variables become the
fields of `Device`, its functions become Lean functions over explicit state, and the
capabilities it calls into (the Preferences key/value store, the pseudo-random generator,
the BME280 driver, the wall clock, WiFiManager and the web server) become explicit
parameters or small executable models.

Conventions.
* `unsigned long` is 32 bits wide on the ESP32; such values are natural numbers and every
  arithmetic step is reduced modulo `2 ^ 32`.
* `float` values are never inspected by the firmware, only copied, apart from one division
  by `100.0F`; they are elements of an arbitrary type `F` and the division is a parameter.
* `String` is Lean's `String`; `id += c` is `String.push`.
-/

namespace Esp32Monitor

/-! ## Identity store (`generateDeviceId`, `getOrCreateDeviceId`) -/

/-- The array `const char charset[] = "abcdefghijklmnopqrstuvwxyz"`: 26 letters followed by
the terminating NUL, 27 bytes in all. -/
def charset : List Char :=
  "abcdefghijklmnopqrstuvwxyz".toList ++ [Char.ofNat 0]

/-- The expression `charset[k]` for a `long` index `k`.  Indices `0 .. 26` read the array;
an index outside the array has no defined value in C++ and reads as NUL here. -/
def charsetAt (k : Int) : Char :=
  if 0 ≤ k then charset.getD k.toNat (Char.ofNat 0) else Char.ofNat 0

/-- The body of `generateDeviceId`.  `random chipid i` is the value returned by the `i`-th
call (`i = 0 .. 5`) of `random(0, 26)` after `randomSeed(chipid)`; the loop
`for (int i = 0; i < 6; i++) id += charset[random(0, 26)];` is a fold over `0 .. 5`. -/
def generateDeviceId (random : Nat → Nat → Int) (chipid : Nat) : String :=
  (List.range 6).foldl (fun id i => id.push (charsetAt (random chipid i))) ""

/-- The namespace `"device"` of the non-volatile store behind the global `preferences`:
the string entries it holds, as key/value pairs (at most one pair per key is consulted,
the first). -/
structure Preferences where
  entries : List (String × String)
deriving DecidableEq, Repr

/-- The call `preferences.isKey(key)`. -/
def Preferences.isKey (p : Preferences) (key : String) : Bool :=
  (p.entries.lookup key).isSome

/-- The call `preferences.getString(key, defaultValue)`. -/
def Preferences.getString (p : Preferences) (key defaultValue : String) : String :=
  (p.entries.lookup key).getD defaultValue

/-- The call `preferences.putString(key, value)`: the entry for `key` is replaced, or
created when there is none. -/
def Preferences.putString (p : Preferences) (key value : String) : Preferences :=
  ⟨(key, value) :: p.entries.filter (fun e => e.1 != key)⟩

/-- What one call of `getOrCreateDeviceId` yields: the returned `String`, the store it
leaves behind, and how many `putString` calls it made. -/
structure IdResult where
  id : String
  prefs : Preferences
  writes : Nat
deriving DecidableEq, Repr

/-- The function `getOrCreateDeviceId`.  `chipid` is `ESP.getEfuseMac()`. -/
def getOrCreateDeviceId (random : Nat → Nat → Int) (chipid : Nat) (preferences : Preferences) :
    IdResult :=
  let storedId := ""
  let storedId := if preferences.isKey "id" then preferences.getString "id" "" else storedId
  if storedId.length = 0 then
    let storedId := generateDeviceId random chipid
    ⟨storedId, preferences.putString "id" storedId, 1⟩
  else
    ⟨storedId, preferences, 0⟩

/-- A well-formed device identity: exactly 6 characters, each in `'a' .. 'z'`. -/
def WellFormedId (s : String) : Prop :=
  s.length = 6 ∧ ∀ c ∈ s.toList, 'a' ≤ c ∧ c ≤ 'z'

instance (s : String) : Decidable (WellFormedId s) := by
  unfold WellFormedId; infer_instance

/-! ## Sampler state and the sensor (`readSensorValues`) -/

/-- The request methods of the web server library; `HTTP_ANY` is the wildcard a route may
be registered with. -/
inductive HTTPMethod
  | HTTP_ANY | HTTP_GET | HTTP_HEAD | HTTP_POST | HTTP_PUT | HTTP_PATCH | HTTP_DELETE
  | HTTP_OPTIONS
deriving DecidableEq, Repr

/-- The three handler functions of `main.cpp`, as the values passed to `server.on` and
`server.onNotFound`. -/
inductive Handler
  | handleRoot | handleObservation | handleNotFound
deriving DecidableEq, Repr

/-- One `server.on(uri, method, handler)` registration. -/
structure Route where
  uri : String
  method : HTTPMethod
  handler : Handler
deriving DecidableEq, Repr

/-- The global `WebServer server(80)`: the registered routes in registration order, the
not-found handler, and whether `begin()` was called. -/
structure WebServer where
  routes : List Route
  notFound : Option Handler
  begun : Bool
deriving DecidableEq, Repr

/-- The global variables of `main.cpp`. -/
structure Device (F : Type) where
  preferences : Preferences
  server : WebServer
  deviceId : String
  lastSensorRead : Nat
  temperature : F
  humidity : F
  pressure : F

/-- The constant `delayTime`. -/
def delayTime : Nat := 5000

/-- Unsigned 32-bit subtraction `a - b` of two `unsigned long` values. -/
def sub32 (a b : Nat) : Nat :=
  (a % 2 ^ 32 + (2 ^ 32 - b % 2 ^ 32)) % 2 ^ 32

/-- What the BME280 driver returns for the three reads that follow one
`takeForcedMeasurement()`; a failed read shows up as whatever sentinel the driver
returns (for instance NaN). -/
structure Bme (F : Type) where
  readTemperature : F
  readHumidity : F
  readPressure : F

/-- Library operations the firmware applies to values it does not otherwise inspect:
`random chipid i` is the `i`-th `random(0, 26)` after `randomSeed(chipid)`, `div100 x` is
the `float` quotient `x / 100.0F`, and `strftime fmt tm` is the text `strftime` writes. -/
structure Platform (F : Type) where
  random : Nat → Nat → Int
  div100 : F → F
  strftime : String → (Int × Int × Int × Int × Int × Int) → String

/-- The function `readSensorValues`. -/
def readSensorValues {F : Type} (pf : Platform F) (bme : Bme F) (d : Device F) : Device F :=
  { d with
    temperature := bme.readTemperature
    humidity := bme.readHumidity
    pressure := pf.div100 bme.readPressure }

/-! ## JSON documents and HTTP responses -/

/-- A value stored in a `JsonDocument` member. -/
inductive JsonValue (F : Type)
  | str (s : String)
  | float (x : F)
  | int (n : Int)
  | uint (n : Nat)
deriving DecidableEq, Repr

/-- A `JsonDocument` holding an object: its members in insertion order. -/
abbrev JsonDocument (F : Type) := List (String × JsonValue F)

/-- The assignment `doc[key] = value`: an existing member is overwritten in place, a new
one is appended. -/
def JsonDocument.set {F : Type} (doc : JsonDocument F) (key : String) (value : JsonValue F) :
    JsonDocument F :=
  if doc.any (fun e => e.1 == key) then
    doc.map (fun e => if e.1 == key then (key, value) else e)
  else
    doc ++ [(key, value)]

/-- The member of `doc` under `key`, when there is one. -/
def JsonDocument.get? {F : Type} (doc : JsonDocument F) (key : String) : Option (JsonValue F) :=
  doc.lookup key

/-- Whether `doc` has a member under `key`. -/
def JsonDocument.containsKey {F : Type} (doc : JsonDocument F) (key : String) : Bool :=
  doc.any (fun e => e.1 == key)

/-- The content handed to `server.send`: either literal text, or the text
`serializeJson(doc, response)` produces, kept as the document it serializes. -/
inductive Body (F : Type)
  | text (s : String)
  | json (doc : JsonDocument F)
deriving DecidableEq, Repr

/-- What `server.send(code, contentType, content)` emits, together with the headers queued
by the `server.sendHeader` calls before it (in call order). -/
structure Response (F : Type) where
  status : Nat
  contentType : String
  headers : List (String × String)
  body : Body F
deriving DecidableEq, Repr

/-- The wall clock as the handlers see it: `time` is the value `time(&now)` stores, and
`getLocalTime` is `some tm` when `getLocalTime(&timeinfo)` succeeds (the clock has been
synchronized), `tm` being (year, month, day, hour, minute, second). -/
structure Clock where
  time : Int
  getLocalTime : Option (Int × Int × Int × Int × Int × Int)

/-- The function `handleObservation`. -/
def handleObservation {F : Type} (pf : Platform F) (clock : Clock) (d : Device F) :
    Response F :=
  let headers : List (String × String) := []
  let headers := headers ++ [("Access-Control-Allow-Origin", "*")]
  let headers := headers ++ [("Access-Control-Allow-Methods", "GET, OPTIONS")]
  let headers := headers ++ [("Access-Control-Allow-Headers", "Content-Type")]
  let doc : JsonDocument F := []
  let doc := doc.set "device_id" (.str d.deviceId)
  let doc := doc.set "temperature_celsius" (.float d.temperature)
  let doc := doc.set "humidity_percent" (.float d.humidity)
  let doc := doc.set "pressure_hpa" (.float d.pressure)
  let doc := doc.set "timestamp" (.int clock.time)
  let doc :=
    match clock.getLocalTime with
    | some timeinfo => doc.set "timestamp_iso" (.str (pf.strftime "%Y-%m-%dT%H:%M:%SZ" timeinfo))
    | none => doc
  let doc := doc.set "last_read_ms" (.uint d.lastSensorRead)
  ⟨200, "application/json", headers, .json doc⟩

/-- The function `handleRoot`; `localIP` is `WiFi.localIP().toString()`. -/
def handleRoot {F : Type} (localIP : String) (d : Device F) : Response F :=
  let html := "<!DOCTYPE html><html><head>"
  let html := html ++ "<meta name=\x27viewport\x27 content=\x27width=device-width, initial-scale=1\x27>"
  let html := html ++ "<style>body\x7bfont-family:Arial,sans-serif;margin:40px;background:#f0f0f0;\x7d"
  let html := html ++ ".container\x7bbackground:white;padding:20px;border-radius:8px;box-shadow:0 2px 4px rgba(0,0,0,0.1);\x7d"
  let html := html ++ "h1\x7bcolor:#333;\x7da\x7bcolor:#0066cc;text-decoration:none;\x7d"
  let html := html ++ ".info\x7bmargin:10px 0;padding:10px;background:#f9f9f9;border-left:3px solid #0066cc;\x7d</style>"
  let html := html ++ "</head><body><div class=\x27container\x27>"
  let html := html ++ "<h1>ESP32 Indoor Monitor</h1>"
  let html := html ++ ("<div class=\x27info\x27><strong>Device ID:</strong> " ++ d.deviceId ++ "</div>")
  let html := html ++ ("<div class=\x27info\x27><strong>Hostname:</strong> esp32-monitor-" ++ d.deviceId ++ ".local</div>")
  let html := html ++ ("<div class=\x27info\x27><strong>IP Address:</strong> " ++ localIP ++ "</div>")
  let html := html ++ "<h2>API Endpoints</h2>"
  let html := html ++ "<div class=\x27info\x27><a href=\x27/api/v1/observation\x27>/api/v1/observation</a> - Get sensor data (JSON)</div>"
  let html := html ++ "</div></body></html>"
  ⟨200, "text/html", [], .text html⟩

/-- The function `handleNotFound`. -/
def handleNotFound {F : Type} : Response F :=
  ⟨404, "text/plain", [], .text "Not Found"⟩

/-! ## Request routing (`server.on`, `server.onNotFound`, `server.handleClient`) -/

/-- An incoming HTTP request: its method and the path of its request line. -/
structure Request where
  method : HTTPMethod
  uri : String
deriving DecidableEq, Repr

/-- The call `server.on(uri, method, handler)`. -/
def WebServer.on (srv : WebServer) (uri : String) (method : HTTPMethod) (handler : Handler) :
    WebServer :=
  { srv with routes := srv.routes ++ [⟨uri, method, handler⟩] }

/-- The call `server.onNotFound(handler)`. -/
def WebServer.onNotFound (srv : WebServer) (handler : Handler) : WebServer :=
  { srv with notFound := some handler }

/-- Whether a registered route accepts a request: the methods agree (or the route was
registered for `HTTP_ANY`) and the path equals the registered one. -/
def Route.canHandle (r : Route) (req : Request) : Bool :=
  (r.method == HTTPMethod.HTTP_ANY || r.method == req.method) && r.uri == req.uri

/-- The handler the server selects for a request: the first registered route that accepts
it, else the not-found handler when one is set. -/
def WebServer.select (srv : WebServer) (req : Request) : Option Handler :=
  match srv.routes.find? (fun r => r.canHandle req) with
  | some r => some r.handler
  | none => srv.notFound

/-- The environment one iteration of `loop` runs in: the request `server.handleClient()`
finds pending (if any), the clock and address the handlers read, the value `millis()`
returns, and the sensor's answer to a forced measurement. -/
structure LoopEnv (F : Type) where
  pending : Option Request
  clock : Clock
  localIP : String
  millis : Nat
  bme : Bme F

/-- Running the handler selected for a request.  With no route and no not-found handler
the library answers with its own 404 page. -/
def WebServer.handleRequest {F : Type} (pf : Platform F) (env : LoopEnv F) (d : Device F)
    (req : Request) : Response F :=
  match d.server.select req with
  | some Handler.handleRoot => handleRoot env.localIP d
  | some Handler.handleObservation => handleObservation pf env.clock d
  | some Handler.handleNotFound => handleNotFound
  | none => ⟨404, "text/plain", [], .text ("Not found: " ++ req.uri)⟩

/-- The call `server.handleClient()`: the pending request, if there is one, is answered. -/
def handleClient {F : Type} (pf : Platform F) (env : LoopEnv F) (d : Device F) :
    Option (Response F) :=
  env.pending.map (WebServer.handleRequest pf env d)

/-! ## The serve loop (`loop`) -/

/-- What one iteration of `loop` leaves: the globals, the response sent (if a request was
pending), and how many times `bme.takeForcedMeasurement()` was called. -/
structure LoopResult (F : Type) where
  device : Device F
  response : Option (Response F)
  forcedMeasurements : Nat

/-- The function `loop`. -/
def loop {F : Type} (pf : Platform F) (env : LoopEnv F) (d : Device F) : LoopResult F :=
  let response := handleClient pf env d
  let currentMillis := env.millis % 2 ^ 32
  if sub32 currentMillis d.lastSensorRead ≥ delayTime then
    let d := { d with lastSensorRead := currentMillis }
    let d := readSensorValues pf env.bme d
    ⟨d, response, 1⟩
  else
    ⟨d, response, 0⟩

/-! ## Boot sequence (`setup`) -/

/-- The externally visible calls `setup` makes, in the order of `main.cpp`. -/
inductive Action
  | serialBegin (baud : Nat)
  | delay (ms : Nat)
  | wireBegin (sda scl : Nat)
  | bmeBegin (addr : Nat)
  | serialPrint (s : String)
  | setSampling
  | setHostname (hostname : String)
  | setConfigPortalTimeout (seconds : Nat)
  | setConnectTimeout (seconds : Nat)
  | setAPStaticIPConfig
  | autoConnect (apName password : String)
  | restart
  | configTime (gmtOffset daylightOffset : Int) (server : String)
  | getLocalTime
  | mdnsBegin (hostname : String)
  | mdnsAddService (service proto : String) (port : Nat)
  | serverOn (uri : String) (method : HTTPMethod) (handler : Handler)
  | serverOnNotFound (handler : Handler)
  | serverBegin
deriving DecidableEq, Repr

/-- One call in the boot trace, stamped with the simulated time (ms since `setup` was
entered) at which it was made. -/
structure Event where
  time : Nat
  action : Action
deriving DecidableEq, Repr

/-- The simulated clock and the trace recorded so far. -/
structure Sim where
  now : Nat
  trace : List Event
deriving DecidableEq, Repr

/-- Record a call made at the current simulated time and let `cost` ms pass for it. -/
def Sim.call (s : Sim) (a : Action) (cost : Nat) : Sim :=
  ⟨s.now + cost, s.trace ++ [⟨s.now, a⟩]⟩

/-- How `setup` ends: it returns (`ready`), it spins in `while (1) delay(1000);` because no
sensor answered (`sensorHalt`), or it calls `ESP.restart()`, which reboots the chip and
does not return (`restarted`). -/
inductive Outcome
  | ready | sensorHalt | restarted
deriving DecidableEq, Repr

/-- What the hardware and the network answer during one boot.  In simulated time
`delay(ms)` takes `ms`, `autoConnect` takes `autoConnectMs`, and every other call takes
no time. -/
structure BootEnv where
  chipid : Nat
  bmeBegin76 : Bool
  bmeBegin77 : Bool
  autoConnect : Bool
  autoConnectMs : Nat
  timeSynced : Nat → Bool
  mdnsBegin : Bool
  localIP : String

/-- What `setup` leaves: the globals, the trace of calls, the simulated time at which it
ended, and how it ended. -/
structure SetupResult (F : Type) where
  device : Device F
  trace : List Event
  endTime : Nat
  outcome : Outcome

/-- The constants `I2C_SDA` and `I2C_SCL`. -/
def I2C_SDA : Nat := 8

/-- The constant `I2C_SCL`. -/
def I2C_SCL : Nat := 9

/-- The constant `ntpServer`. -/
def ntpServer : String := "pool.ntp.org"

/-- The constant `gmtOffset_sec`. -/
def gmtOffset_sec : Int := 0

/-- The constant `daylightOffset_sec`. -/
def daylightOffset_sec : Int := 0

/-- The loop `while (!getLocalTime(&timeinfo) && retries < 10) { delay(1000); retries++; }`
of `setup`; `timeSynced k` is the answer of the call made when `retries = k`. -/
def waitForTime (timeSynced : Nat → Bool) (retries : Nat) (s : Sim) : Sim :=
  let s := s.call Action.getLocalTime 0
  if h : (!timeSynced retries) = true ∧ retries < 10 then
    waitForTime timeSynced (retries + 1) (s.call (Action.delay 1000) 1000)
  else
    s
termination_by 10 - retries
decreasing_by omega

/-- The function `setup`, run on the globals `d`. -/
def setup {F : Type} (pf : Platform F) (env : BootEnv) (d : Device F) : SetupResult F :=
  let s : Sim := ⟨0, []⟩
  let s := s.call (.serialBegin 115200) 0
  let s := s.call (.delay 100) 100
  let r := getOrCreateDeviceId pf.random env.chipid d.preferences
  let d := { d with preferences := r.prefs, deviceId := r.id }
  let s := s.call (.wireBegin I2C_SDA I2C_SCL) 0
  let s := s.call (.bmeBegin 0x76) 0
  let s := if env.bmeBegin76 then s else s.call (.bmeBegin 0x77) 0
  if !env.bmeBegin76 && !env.bmeBegin77 then
    let s := s.call (.serialPrint "ERROR: BME280 sensor not found!\n") 0
    ⟨d, s.trace, s.now, .sensorHalt⟩
  else
    let s := s.call .setSampling 0
    let apName := "ESP32-Monitor-" ++ d.deviceId
    let hostname := "esp32-monitor-" ++ d.deviceId
    let s := s.call (.setHostname hostname) 0
    let s := s.call (.setConfigPortalTimeout 180) 0
    let s := s.call (.setConnectTimeout 20) 0
    let s := s.call .setAPStaticIPConfig 0
    let s := s.call (.autoConnect apName "password123") env.autoConnectMs
    if !env.autoConnect then
      let s := s.call (.delay 3000) 3000
      let s := s.call .restart 0
      ⟨d, s.trace, s.now, .restarted⟩
    else
      let s := s.call (.serialPrint "Device: ") 0
      let s := s.call (.serialPrint (d.deviceId ++ "\n")) 0
      let s := s.call (.serialPrint "IP: ") 0
      let s := s.call (.serialPrint (env.localIP ++ "\n")) 0
      let s := s.call (.configTime gmtOffset_sec daylightOffset_sec ntpServer) 0
      let retries := 0
      let s := waitForTime env.timeSynced retries s
      let s := s.call (.mdnsBegin hostname) 0
      let s := if env.mdnsBegin then s.call (.mdnsAddService "http" "tcp" 80) 0 else s
      let s := s.call (.serverOn "/" .HTTP_GET .handleRoot) 0
      let d := { d with server := d.server.on "/" .HTTP_GET .handleRoot }
      let s := s.call (.serverOn "/api/v1/observation" .HTTP_GET .handleObservation) 0
      let d := { d with server := d.server.on "/api/v1/observation" .HTTP_GET .handleObservation }
      let s := s.call (.serverOnNotFound .handleNotFound) 0
      let d := { d with server := d.server.onNotFound .handleNotFound }
      let s := s.call .serverBegin 0
      let d := { d with server := { d.server with begun := true } }
      let s := s.call (.serialPrint "Ready\n") 0
      ⟨d, s.trace, s.now, .ready⟩

/-- The globals as the C++ initializers leave them, over a given store content; `zero` is
the `float` value `0.0`. -/
def Device.initial {F : Type} (zero : F) (preferences : Preferences) : Device F :=
  ⟨preferences, ⟨[], none, false⟩, "", 0, zero, zero, zero⟩

/-! ## Predicates on boot traces -/

/-- Whether a call belongs to bringing up the services that follow provisioning: NTP
(`configTime`, `getLocalTime`), mDNS, and HTTP route registration and start. -/
def Action.isServiceSetup : Action → Bool
  | .configTime _ _ _ => true
  | .getLocalTime => true
  | .mdnsBegin _ => true
  | .mdnsAddService _ _ _ => true
  | .serverOn _ _ _ => true
  | .serverOnNotFound _ => true
  | .serverBegin => true
  | _ => false

/-- How many `ESP.restart()` calls a trace holds. -/
def restartCount (trace : List Event) : Nat :=
  (trace.filter (fun e => e.action == Action.restart)).length

/-- No `ESP.restart()` call has been recorded so far. -/
def NoRestart (s : Sim) : Prop :=
  ∀ e ∈ s.trace, e.action ≠ Action.restart

/-! ## Sample inputs

Concrete environments over rational `float` values, used to evaluate the model. -/

/-- A platform whose generator yields `(seed + 7 * i) mod 26`, with exact division and a
fixed formatted time. -/
def samplePlatform : Platform Rat :=
  ⟨fun seed i => ((seed + 7 * i) % 26 : Nat), fun x => x / 100,
    fun _ _ => "2024-01-01T00:00:00Z"⟩

/-- A boot in which the sensor answers at `0x76`, WiFi connects after 1.5 s and the clock
is synchronized at once. -/
def sampleBootEnv : BootEnv :=
  ⟨5, true, false, true, 1500, fun _ => true, true, "192.168.1.50"⟩

/-- A boot in which the sensor answers at `0x76` and `autoConnect` gives up after the full
20 s + 180 s. -/
def failingBootEnv : BootEnv :=
  ⟨5, true, false, false, 200000, fun _ => true, true, "0.0.0.0"⟩

/-- The globals after `sampleBootEnv` booted an empty store, holding the snapshot
`(23.5, 45.0, 1013.2)` taken at `lastSensorRead`. -/
def sampleDevice (lastSensorRead : Nat) : Device Rat :=
  { (setup samplePlatform sampleBootEnv (Device.initial 0 ⟨[]⟩)).device with
    lastSensorRead := lastSensorRead
    temperature := 23.5
    humidity := 45.0
    pressure := 1013.2 }

/-- A loop iteration with the given pending request and `millis()` value, an
unsynchronized clock, and a sensor answering 21.0 °C, 40.0 %, 101325 Pa. -/
def sampleLoopEnv (pending : Option Request) (millis : Nat) : LoopEnv Rat :=
  ⟨pending, ⟨1700000000, none⟩, "192.168.1.50", millis, ⟨21.0, 40.0, 101325.0⟩⟩

/-! ## Lemmas: identity store -/

theorem generateDeviceId_length (random : Nat → Nat → Int) (chipid : Nat) :
    (generateDeviceId random chipid).length = 6 := by
  simp [generateDeviceId, List.range, List.range.loop, String.length_push]

theorem generateDeviceId_toList (random : Nat → Nat → Int) (chipid : Nat) :
    (generateDeviceId random chipid).toList =
      (List.range 6).map (fun i => charsetAt (random chipid i)) := by
  simp [generateDeviceId, List.range, List.range.loop, String.toList, String.push]

theorem charsetAt_lower (k : Int) (h0 : 0 ≤ k) (h1 : k < 26) :
    'a' ≤ charsetAt k ∧ charsetAt k ≤ 'z' := by
  obtain ⟨n, rfl⟩ := Int.eq_ofNat_of_zero_le h0
  have hn : n < 26 := by omega
  simp only [charsetAt, h0, if_true, Int.toNat_ofNat]
  interval_cases n <;> decide

theorem generateDeviceId_wellFormed (random : Nat → Nat → Int) (chipid : Nat)
    (hrandom : ∀ i, i < 6 → 0 ≤ random chipid i ∧ random chipid i < 26) :
    WellFormedId (generateDeviceId random chipid) := by
  refine ⟨generateDeviceId_length random chipid, ?_⟩
  intro c hc
  rw [generateDeviceId_toList] at hc
  obtain ⟨i, hi, rfl⟩ := List.mem_map.mp hc
  have hi6 : i < 6 := List.mem_range.mp hi
  exact charsetAt_lower _ (hrandom i hi6).1 (hrandom i hi6).2

theorem putString_lookup (p : Preferences) (k v : String) :
    (p.putString k v).entries.lookup k = some v := by
  simp [Preferences.putString, List.lookup]

theorem getOrCreateDeviceId_stored (random : Nat → Nat → Int) (chipid : Nat)
    (p : Preferences) (v : String) (hv : p.entries.lookup "id" = some v) (hl : v.length ≠ 0) :
    getOrCreateDeviceId random chipid p = ⟨v, p, 0⟩ := by
  simp [getOrCreateDeviceId, Preferences.isKey, Preferences.getString, hv, hl]

theorem getOrCreateDeviceId_fresh (random : Nat → Nat → Int) (chipid : Nat)
    (p : Preferences) (hv : ∀ v, p.entries.lookup "id" = some v → v.length = 0) :
    getOrCreateDeviceId random chipid p =
      ⟨generateDeviceId random chipid, p.putString "id" (generateDeviceId random chipid), 1⟩ := by
  cases h : p.entries.lookup "id" with
  | none => simp [getOrCreateDeviceId, Preferences.isKey, Preferences.getString, h]
  | some v =>
    have := hv v h
    simp [getOrCreateDeviceId, Preferences.isKey, Preferences.getString, h, this]

theorem stored_or_fresh (p : Preferences) :
    (∃ v, p.entries.lookup "id" = some v ∧ v.length ≠ 0) ∨
      (∀ v, p.entries.lookup "id" = some v → v.length = 0) := by
  cases h : p.entries.lookup "id" with
  | none => right; intro v hv; cases hv
  | some v =>
    by_cases hl : v.length = 0
    · right; intro w hw; cases hw; exact hl
    · left; exact ⟨v, rfl, hl⟩

/-! ## Lemmas: the serve loop -/

theorem sub32_of_lt (a b : Nat) (ha : a < 2 ^ 32) (hb : b < 2 ^ 32) :
    sub32 a b = (a + 2 ^ 32 - b) % 2 ^ 32 := by
  unfold sub32
  rw [Nat.mod_eq_of_lt ha, Nat.mod_eq_of_lt hb]
  congr 1
  omega

theorem sub32_add_elapsed (last elapsed : Nat) (hlast : last < 2 ^ 32)
    (helapsed : elapsed < 2 ^ 32) :
    sub32 ((last + elapsed) % 2 ^ 32) last = elapsed := by
  unfold sub32
  rw [Nat.mod_mod, Nat.mod_eq_of_lt hlast]
  omega

theorem loop_of_due {F : Type} (pf : Platform F) (env : LoopEnv F) (d : Device F)
    (h : sub32 (env.millis % 2 ^ 32) d.lastSensorRead ≥ delayTime) :
    loop pf env d =
      ⟨readSensorValues pf env.bme { d with lastSensorRead := env.millis % 2 ^ 32 },
        handleClient pf env d, 1⟩ := by
  unfold loop
  exact if_pos h

theorem loop_of_not_due {F : Type} (pf : Platform F) (env : LoopEnv F) (d : Device F)
    (h : ¬ sub32 (env.millis % 2 ^ 32) d.lastSensorRead ≥ delayTime) :
    loop pf env d = ⟨d, handleClient pf env d, 0⟩ := by
  unfold loop
  exact if_neg h

theorem loop_lastSensorRead_cases {F : Type} (pf : Platform F) (env : LoopEnv F)
    (d : Device F) :
    (loop pf env d).device.lastSensorRead = d.lastSensorRead
      ∨ (loop pf env d).device.lastSensorRead = env.millis % 2 ^ 32 := by
  by_cases h : sub32 (env.millis % 2 ^ 32) d.lastSensorRead ≥ delayTime
  · rw [loop_of_due pf env d h]; exact Or.inr rfl
  · rw [loop_of_not_due pf env d h]; exact Or.inl rfl

theorem loop_response {F : Type} (pf : Platform F) (env : LoopEnv F) (d : Device F) :
    (loop pf env d).response = handleClient pf env d := by
  by_cases h : sub32 (env.millis % 2 ^ 32) d.lastSensorRead ≥ delayTime
  · rw [loop_of_due pf env d h]
  · rw [loop_of_not_due pf env d h]

/-! ## Lemmas: the observation document -/

theorem handleObservation_eq {F : Type} (pf : Platform F) (clock : Clock) (d : Device F) :
    handleObservation pf clock d =
      ⟨200, "application/json",
        [("Access-Control-Allow-Origin", "*"), ("Access-Control-Allow-Methods", "GET, OPTIONS"),
          ("Access-Control-Allow-Headers", "Content-Type")],
        Body.json
          ([("device_id", JsonValue.str d.deviceId),
            ("temperature_celsius", JsonValue.float d.temperature),
            ("humidity_percent", JsonValue.float d.humidity),
            ("pressure_hpa", JsonValue.float d.pressure),
            ("timestamp", JsonValue.int clock.time)]
            ++ (match clock.getLocalTime with
                | some timeinfo =>
                  [("timestamp_iso", JsonValue.str (pf.strftime "%Y-%m-%dT%H:%M:%SZ" timeinfo))]
                | none => [])
            ++ [("last_read_ms", JsonValue.uint d.lastSensorRead)])⟩ := by
  cases h : clock.getLocalTime <;> simp [handleObservation, h, JsonDocument.set]

/-! ## Lemmas: boot and routing -/

theorem waitForTime_trace (timeSynced : Nat → Bool) (retries : Nat) (s : Sim) :
    ∀ e ∈ (waitForTime timeSynced retries s).trace,
      e ∈ s.trace ∨ e.action = Action.getLocalTime ∨ e.action = Action.delay 1000 := by
  induction retries, s using waitForTime.induct timeSynced with
  | case1 retries s s1 h ih =>
    intro e he
    rw [waitForTime, dif_pos h] at he
    have h1 := ih e he
    simp only [s1, Sim.call, List.mem_append, List.mem_singleton] at h1
    rcases h1 with ((h1 | h1) | h1) | h1 | h1
    · exact Or.inl h1
    · exact Or.inr (Or.inl (by rw [h1]))
    · exact Or.inr (Or.inr (by rw [h1]))
    · exact Or.inr (Or.inl h1)
    · exact Or.inr (Or.inr h1)
  | case2 retries s h =>
    intro e he
    rw [waitForTime, dif_neg h] at he
    simp only [Sim.call, List.mem_append, List.mem_singleton] at he
    rcases he with he | he
    · exact Or.inl he
    · exact Or.inr (Or.inl (by rw [he]))

theorem noRestart_call {s : Sim} (h : NoRestart s) (a : Action) (cost : Nat)
    (ha : a ≠ Action.restart) : NoRestart (s.call a cost) := by
  intro e he
  simp only [Sim.call, List.mem_append, List.mem_singleton] at he
  rcases he with he | he
  · exact h e he
  · rw [he]; exact ha

theorem noRestart_waitForTime {s : Sim} (h : NoRestart s) (timeSynced : Nat → Bool)
    (retries : Nat) : NoRestart (waitForTime timeSynced retries s) := by
  intro e he
  rcases waitForTime_trace timeSynced retries s e he with h1 | h1 | h1
  · exact h e h1
  · rw [h1]; decide
  · rw [h1]; decide

theorem setup_of_autoConnect_failure {F : Type} (pf : Platform F) (env : BootEnv)
    (d : Device F) (hsensor : env.bmeBegin76 = true ∨ env.bmeBegin77 = true)
    (hfail : env.autoConnect = false) :
    (setup pf env d).outcome = Outcome.restarted
      ∧ (∃ pre : List Event,
          (setup pf env d).trace =
            pre ++ [⟨100, Action.autoConnect
                      ("ESP32-Monitor-" ++ (setup pf env d).device.deviceId) "password123"⟩,
                    ⟨100 + env.autoConnectMs, Action.delay 3000⟩,
                    ⟨100 + env.autoConnectMs + 3000, Action.restart⟩]
            ∧ ∀ e ∈ pre, e.time ≤ 100 ∧ e.action ≠ Action.restart)
      ∧ restartCount (setup pf env d).trace = 1
      ∧ (∀ e ∈ (setup pf env d).trace, e.action.isServiceSetup = false)
      ∧ (setup pf env d).device.server = d.server
      ∧ (setup pf env d).endTime = 100 + env.autoConnectMs + 3000 := by
  refine ⟨?_, ⟨(setup pf env d).trace.take ((setup pf env d).trace.length - 3), ?_⟩, ?_⟩
  · rcases hsensor with h | h <;> simp [setup, h, hfail]
  · rcases hsensor with h | h
    · simp [setup, h, hfail, Sim.call]
    · cases h76 : env.bmeBegin76 <;> simp [setup, h, h76, hfail, Sim.call]
  · rcases hsensor with h | h
    · simp [setup, h, hfail, Sim.call, restartCount, Action.isServiceSetup]
    · cases h76 : env.bmeBegin76 <;>
        simp [setup, h, h76, hfail, Sim.call, restartCount, Action.isServiceSetup]

theorem setup_of_autoConnect_success {F : Type} (pf : Platform F) (env : BootEnv)
    (d : Device F) (hsensor : env.bmeBegin76 = true ∨ env.bmeBegin77 = true)
    (hok : env.autoConnect = true) :
    (setup pf env d).outcome = Outcome.ready
      ∧ ∀ e ∈ (setup pf env d).trace, e.action ≠ Action.restart := by
  have hs : (!env.bmeBegin76 && !env.bmeBegin77) = false := by
    rcases hsensor with h | h <;> simp [h]
  refine ⟨by simp [setup, hs, hok], ?_⟩
  have h0 : NoRestart ⟨0, []⟩ := by intro e he; cases he
  simp only [setup, hs, hok, Bool.not_true, Bool.false_eq_true, if_false]
  change NoRestart _
  repeat' first
    | exact h0
    | refine noRestart_call ?_ _ _ (fun h => Action.noConfusion h)
    | refine noRestart_waitForTime ?_ _ _
    | split

theorem setup_server_of_ready {F : Type} (pf : Platform F) (env : BootEnv) (d : Device F)
    (h : (setup pf env d).outcome = Outcome.ready) :
    (setup pf env d).device.server =
      ⟨d.server.routes ++ [⟨"/", HTTPMethod.HTTP_GET, Handler.handleRoot⟩,
          ⟨"/api/v1/observation", HTTPMethod.HTTP_GET, Handler.handleObservation⟩],
        some Handler.handleNotFound, true⟩ := by
  unfold setup at h ⊢
  by_cases hs : (!env.bmeBegin76 && !env.bmeBegin77) = true
  · simp [hs] at h
  · by_cases ha : (!env.autoConnect) = true
    · simp [hs, ha] at h
    · simp [hs, ha, WebServer.on, WebServer.onNotFound]

theorem select_after_setup (routes : List Route) (req : Request) (hroutes : routes = []) :
    WebServer.select
        ⟨routes ++ [⟨"/", HTTPMethod.HTTP_GET, Handler.handleRoot⟩,
          ⟨"/api/v1/observation", HTTPMethod.HTTP_GET, Handler.handleObservation⟩],
          some Handler.handleNotFound, true⟩ req =
      if req.method = HTTPMethod.HTTP_GET ∧ req.uri = "/" then some Handler.handleRoot
      else if req.method = HTTPMethod.HTTP_GET ∧ req.uri = "/api/v1/observation" then
        some Handler.handleObservation
      else some Handler.handleNotFound := by
  subst hroutes
  obtain ⟨m, u⟩ := req
  by_cases h1 : m = HTTPMethod.HTTP_GET ∧ u = "/"
  · obtain ⟨rfl, rfl⟩ := h1
    simp [WebServer.select, Route.canHandle, List.find?]
  · by_cases h2 : m = HTTPMethod.HTTP_GET ∧ u = "/api/v1/observation"
    · obtain ⟨rfl, rfl⟩ := h2
      simp [WebServer.select, Route.canHandle, List.find?]
    · have c1 : Route.canHandle ⟨"/", HTTPMethod.HTTP_GET, Handler.handleRoot⟩ ⟨m, u⟩
          = false := by
        simp only [Route.canHandle]
        by_cases hm : m = HTTPMethod.HTTP_GET
        · have hu : ¬ u = "/" := fun hu => h1 ⟨hm, hu⟩
          simp [hm, Ne.symm hu]
        · simp [Ne.symm hm]
      have c2 : Route.canHandle
          ⟨"/api/v1/observation", HTTPMethod.HTTP_GET, Handler.handleObservation⟩ ⟨m, u⟩
            = false := by
        simp only [Route.canHandle]
        by_cases hm : m = HTTPMethod.HTTP_GET
        · have hu : ¬ u = "/api/v1/observation" := fun hu => h2 ⟨hm, hu⟩
          simp [hm, Ne.symm hu]
        · simp [Ne.symm hm]
      simp [WebServer.select, List.find?, c1, c2, h1, h2]

theorem response_after_setup {F : Type} (pf : Platform F) (benv : BootEnv) (zero : F)
    (preferences : Preferences)
    (hready : (setup pf benv (Device.initial zero preferences)).outcome = Outcome.ready)
    (d : Device F)
    (hserver : d.server = (setup pf benv (Device.initial zero preferences)).device.server)
    (env : LoopEnv F) (req : Request) (hpending : env.pending = some req) :
    (loop pf env d).response = some
      (if req.method = HTTPMethod.HTTP_GET ∧ req.uri = "/" then handleRoot env.localIP d
       else if req.method = HTTPMethod.HTTP_GET ∧ req.uri = "/api/v1/observation" then
         handleObservation pf env.clock d
       else handleNotFound) := by
  rw [loop_response, handleClient, hpending, Option.map_some', WebServer.handleRequest, hserver,
    setup_server_of_ready pf benv _ hready,
    select_after_setup _ _ (rfl : (Device.initial zero preferences).server.routes = [])]
  by_cases h1 : req.method = HTTPMethod.HTTP_GET ∧ req.uri = "/"
  · simp only [if_pos h1]
  · by_cases h2 : req.method = HTTPMethod.HTTP_GET ∧ req.uri = "/api/v1/observation"
    · simp only [if_neg h1, if_pos h2]
    · simp only [if_neg h1, if_neg h2]

theorem sampleBoot_ready :
    (setup samplePlatform sampleBootEnv (Device.initial 0 ⟨[]⟩)).outcome = Outcome.ready :=
  (setup_of_autoConnect_success _ _ _ (Or.inl rfl) rfl).1

/-! ## The identity store is idempotent and well-formed -/

/-- C1: for every store content and all seeds and generators, a second
`getOrCreateDeviceId` run on the store left by a first one returns the identifier the
first returned, makes no `putString` call, and leaves the store as it found it. -/
theorem getOrCreateDeviceId_idempotent (random₁ random₂ : Nat → Nat → Int)
    (chipid₁ chipid₂ : Nat) (preferences : Preferences) :
    (getOrCreateDeviceId random₂ chipid₂
        (getOrCreateDeviceId random₁ chipid₁ preferences).prefs).id
        = (getOrCreateDeviceId random₁ chipid₁ preferences).id
      ∧ (getOrCreateDeviceId random₂ chipid₂
          (getOrCreateDeviceId random₁ chipid₁ preferences).prefs).writes = 0
      ∧ (getOrCreateDeviceId random₂ chipid₂
          (getOrCreateDeviceId random₁ chipid₁ preferences).prefs).prefs
        = (getOrCreateDeviceId random₁ chipid₁ preferences).prefs := by
  rcases stored_or_fresh preferences with ⟨v, hv, hl⟩ | hv
  · rw [getOrCreateDeviceId_stored random₁ chipid₁ preferences v hv hl,
      getOrCreateDeviceId_stored random₂ chipid₂ preferences v hv hl]
    exact ⟨rfl, rfl, rfl⟩
  · rw [getOrCreateDeviceId_fresh random₁ chipid₁ preferences hv]
    have hl : (generateDeviceId random₁ chipid₁).length ≠ 0 := by
      rw [generateDeviceId_length]; decide
    rw [getOrCreateDeviceId_stored random₂ chipid₂ _ _ (putString_lookup _ _ _) hl]
    exact ⟨rfl, rfl, rfl⟩

/-- C3: when every `random(0, 26)` drawn lies in `[0, 26)`, `generateDeviceId` returns
exactly 6 characters in `'a' .. 'z'`; and on a store holding no id (or an empty one) or a
well-formed id, `getOrCreateDeviceId` returns such an identifier and the store it leaves
holds that identifier under `"id"`. -/
theorem getOrCreateDeviceId_wellFormed (random : Nat → Nat → Int) (chipid : Nat)
    (preferences : Preferences)
    (hrandom : ∀ i, i < 6 → 0 ≤ random chipid i ∧ random chipid i < 26)
    (hstore : ∀ v, preferences.entries.lookup "id" = some v → v.length = 0 ∨ WellFormedId v) :
    WellFormedId (generateDeviceId random chipid)
      ∧ WellFormedId (getOrCreateDeviceId random chipid preferences).id
      ∧ (getOrCreateDeviceId random chipid preferences).prefs.isKey "id" = true
      ∧ WellFormedId
          ((getOrCreateDeviceId random chipid preferences).prefs.getString "id" "")
      ∧ (getOrCreateDeviceId random chipid preferences).prefs.getString "id" ""
          = (getOrCreateDeviceId random chipid preferences).id := by
  have hgen := generateDeviceId_wellFormed random chipid hrandom
  refine ⟨hgen, ?_⟩
  rcases stored_or_fresh preferences with ⟨v, hv, hl⟩ | hv
  · rw [getOrCreateDeviceId_stored random chipid preferences v hv hl]
    rcases hstore v hv with h | h
    · exact absurd h hl
    · have hget : preferences.getString "id" "" = v := by simp [Preferences.getString, hv]
      exact ⟨h, by simp [Preferences.isKey, hv], by rw [hget]; exact h, hget⟩
  · rw [getOrCreateDeviceId_fresh random chipid preferences hv]
    have hget : (preferences.putString "id" (generateDeviceId random chipid)).getString "id" ""
        = generateDeviceId random chipid := by
      simp [Preferences.getString, putString_lookup]
    exact ⟨hgen, by simp [Preferences.isKey, putString_lookup], by rw [hget]; exact hgen, hget⟩

/-- The theorem `getOrCreateDeviceId_wellFormed` applied to the sample generator, seed 5
and an empty store. -/
theorem getOrCreateDeviceId_wellFormed_witness :
    (∀ i, i < 6 → 0 ≤ samplePlatform.random 5 i ∧ samplePlatform.random 5 i < 26)
      ∧ (∀ v, (⟨[]⟩ : Preferences).entries.lookup "id" = some v →
          v.length = 0 ∨ WellFormedId v)
      ∧ WellFormedId (generateDeviceId samplePlatform.random 5)
      ∧ WellFormedId (getOrCreateDeviceId samplePlatform.random 5 ⟨[]⟩).id
      ∧ (getOrCreateDeviceId samplePlatform.random 5 ⟨[]⟩).prefs.isKey "id" = true
      ∧ WellFormedId
          ((getOrCreateDeviceId samplePlatform.random 5 ⟨[]⟩).prefs.getString "id" "")
      ∧ (getOrCreateDeviceId samplePlatform.random 5 ⟨[]⟩).prefs.getString "id" ""
          = (getOrCreateDeviceId samplePlatform.random 5 ⟨[]⟩).id :=
  have hrandom : ∀ i, i < 6 → 0 ≤ samplePlatform.random 5 i ∧ samplePlatform.random 5 i < 26 := by
    intro i _
    simp only [samplePlatform]
    constructor <;> omega
  have hstore : ∀ v, (⟨[]⟩ : Preferences).entries.lookup "id" = some v →
      v.length = 0 ∨ WellFormedId v := by
    intro v hv; cases hv
  ⟨hrandom, hstore, getOrCreateDeviceId_wellFormed samplePlatform.random 5 ⟨[]⟩ hrandom hstore⟩

/-- The sample generator with seed 5 yields the identifier `fmtaho`. -/
theorem generateDeviceId_sample : generateDeviceId samplePlatform.random 5 = "fmtaho" := by
  decide

/-! ## The sampler's polling step -/

/-- C2: for 32-bit values of `millis()` and `lastSensorRead`, one iteration of `loop`
makes exactly one forced measurement iff the unsigned 32-bit difference
`now - lastSensorRead` is at least 5000 (and none otherwise); when it is,
`lastSensorRead` becomes `now` and the three cached values become what the driver
returned (pressure divided by 100); when it is not, all four are unchanged. -/
theorem loop_poll_contract {F : Type} (pf : Platform F) (env : LoopEnv F) (d : Device F)
    (hnow : env.millis < 2 ^ 32) (hlast : d.lastSensorRead < 2 ^ 32) :
    ((loop pf env d).forcedMeasurements = 1 ↔
        (env.millis + 2 ^ 32 - d.lastSensorRead) % 2 ^ 32 ≥ 5000)
      ∧ ((env.millis + 2 ^ 32 - d.lastSensorRead) % 2 ^ 32 ≥ 5000 →
          (loop pf env d).forcedMeasurements = 1
            ∧ (loop pf env d).device.lastSensorRead = env.millis
            ∧ (loop pf env d).device.temperature = env.bme.readTemperature
            ∧ (loop pf env d).device.humidity = env.bme.readHumidity
            ∧ (loop pf env d).device.pressure = pf.div100 env.bme.readPressure)
      ∧ (¬ (env.millis + 2 ^ 32 - d.lastSensorRead) % 2 ^ 32 ≥ 5000 →
          (loop pf env d).forcedMeasurements = 0
            ∧ (loop pf env d).device.lastSensorRead = d.lastSensorRead
            ∧ (loop pf env d).device.temperature = d.temperature
            ∧ (loop pf env d).device.humidity = d.humidity
            ∧ (loop pf env d).device.pressure = d.pressure) := by
  have hsub : sub32 (env.millis % 2 ^ 32) d.lastSensorRead
      = (env.millis + 2 ^ 32 - d.lastSensorRead) % 2 ^ 32 := by
    rw [Nat.mod_eq_of_lt hnow, sub32_of_lt _ _ hnow hlast]
  by_cases h : (env.millis + 2 ^ 32 - d.lastSensorRead) % 2 ^ 32 ≥ 5000
  · have h' : sub32 (env.millis % 2 ^ 32) d.lastSensorRead ≥ delayTime := by
      rw [hsub]; exact h
    rw [loop_of_due pf env d h', Nat.mod_eq_of_lt hnow]
    exact ⟨⟨fun _ => h, fun _ => rfl⟩, fun _ => ⟨rfl, rfl, rfl, rfl, rfl⟩,
      fun hn => absurd h hn⟩
  · have h' : ¬ sub32 (env.millis % 2 ^ 32) d.lastSensorRead ≥ delayTime := by
      rw [hsub]; exact h
    rw [loop_of_not_due pf env d h']
    exact ⟨⟨fun h0 => (Nat.zero_ne_one h0).elim, fun hn => absurd hn h⟩,
      fun hn => absurd hn h, fun _ => ⟨rfl, rfl, rfl, rfl, rfl⟩⟩

/-- The theorem `loop_poll_contract` applied 6000 ms after a poll at time 0. -/
theorem loop_poll_contract_witness :
    (sampleLoopEnv none 6000).millis < 2 ^ 32 ∧ (sampleDevice 0).lastSensorRead < 2 ^ 32
      ∧ ((loop samplePlatform (sampleLoopEnv none 6000) (sampleDevice 0)).forcedMeasurements = 1 ↔
        ((sampleLoopEnv none 6000).millis + 2 ^ 32 - (sampleDevice 0).lastSensorRead) % 2 ^ 32 ≥ 5000)
      ∧ (((sampleLoopEnv none 6000).millis + 2 ^ 32 - (sampleDevice 0).lastSensorRead) % 2 ^ 32 ≥ 5000 →
          (loop samplePlatform (sampleLoopEnv none 6000) (sampleDevice 0)).forcedMeasurements = 1
            ∧ (loop samplePlatform (sampleLoopEnv none 6000) (sampleDevice 0)).device.lastSensorRead = (sampleLoopEnv none 6000).millis
            ∧ (loop samplePlatform (sampleLoopEnv none 6000) (sampleDevice 0)).device.temperature = (sampleLoopEnv none 6000).bme.readTemperature
            ∧ (loop samplePlatform (sampleLoopEnv none 6000) (sampleDevice 0)).device.humidity = (sampleLoopEnv none 6000).bme.readHumidity
            ∧ (loop samplePlatform (sampleLoopEnv none 6000) (sampleDevice 0)).device.pressure = samplePlatform.div100 (sampleLoopEnv none 6000).bme.readPressure)
      ∧ (¬ ((sampleLoopEnv none 6000).millis + 2 ^ 32 - (sampleDevice 0).lastSensorRead) % 2 ^ 32 ≥ 5000 →
          (loop samplePlatform (sampleLoopEnv none 6000) (sampleDevice 0)).forcedMeasurements = 0
            ∧ (loop samplePlatform (sampleLoopEnv none 6000) (sampleDevice 0)).device.lastSensorRead = (sampleDevice 0).lastSensorRead
            ∧ (loop samplePlatform (sampleLoopEnv none 6000) (sampleDevice 0)).device.temperature = (sampleDevice 0).temperature
            ∧ (loop samplePlatform (sampleLoopEnv none 6000) (sampleDevice 0)).device.humidity = (sampleDevice 0).humidity
            ∧ (loop samplePlatform (sampleLoopEnv none 6000) (sampleDevice 0)).device.pressure = (sampleDevice 0).pressure) :=
  ⟨by decide, by decide,
    loop_poll_contract samplePlatform (sampleLoopEnv none 6000) (sampleDevice 0)
      (by decide) (by decide)⟩

/-- C7, as stated, fails when `millis()` has wrapped: from `lastSensorRead = 4294966296`
a reading of 4000 is due (the unsigned difference is 5000), and the iteration lowers
`lastSensorRead` to 4000. -/
theorem lastSensorRead_decreases_on_wrap :
    (sampleDevice 4294966296).lastSensorRead = 4294966296
      ∧ (sampleLoopEnv none 4000).millis = 4000
      ∧ (loop samplePlatform (sampleLoopEnv none 4000)
          (sampleDevice 4294966296)).device.lastSensorRead = 4000
      ∧ ¬ ((loop samplePlatform (sampleLoopEnv none 4000)
            (sampleDevice 4294966296)).device.lastSensorRead
          ≥ (sampleDevice 4294966296).lastSensorRead) := by
  have h : sub32 ((sampleLoopEnv none 4000).millis % 2 ^ 32)
      (sampleDevice 4294966296).lastSensorRead ≥ delayTime := by decide
  rw [loop_of_due _ _ _ h]
  exact ⟨rfl, rfl, by decide, by decide⟩

/-- C7, amended: when the 32-bit reading `now` is not below `lastSensorRead` (the counter
has not wrapped since the last poll), `lastSensorRead` after an iteration of `loop` is at
least its value before; it is either unchanged or equal to `now`. -/
theorem loop_lastSensorRead_monotone_of_no_wrap {F : Type} (pf : Platform F)
    (env : LoopEnv F) (d : Device F) (hnow : env.millis < 2 ^ 32)
    (hle : d.lastSensorRead ≤ env.millis) :
    (loop pf env d).device.lastSensorRead ≥ d.lastSensorRead
      ∧ ((loop pf env d).device.lastSensorRead = d.lastSensorRead
          ∨ (loop pf env d).device.lastSensorRead = env.millis) := by
  rcases loop_lastSensorRead_cases pf env d with h | h
  · exact ⟨by rw [h], Or.inl h⟩
  · rw [Nat.mod_eq_of_lt hnow] at h
    exact ⟨by rw [h]; exact hle, Or.inr h⟩

/-- The theorem `loop_lastSensorRead_monotone_of_no_wrap` applied at time 70000 after a
poll at time 60000. -/
theorem loop_lastSensorRead_monotone_of_no_wrap_witness :
    (sampleLoopEnv none 70000).millis < 2 ^ 32
      ∧ (sampleDevice 60000).lastSensorRead ≤ (sampleLoopEnv none 70000).millis
      ∧ (loop samplePlatform (sampleLoopEnv none 70000) (sampleDevice 60000)).device.lastSensorRead ≥ (sampleDevice 60000).lastSensorRead
      ∧ ((loop samplePlatform (sampleLoopEnv none 70000) (sampleDevice 60000)).device.lastSensorRead = (sampleDevice 60000).lastSensorRead
          ∨ (loop samplePlatform (sampleLoopEnv none 70000) (sampleDevice 60000)).device.lastSensorRead = (sampleLoopEnv none 70000).millis) :=
  ⟨by decide, by decide,
    loop_lastSensorRead_monotone_of_no_wrap samplePlatform (sampleLoopEnv none 70000)
      (sampleDevice 60000) (by decide) (by decide)⟩

/-- C10: if `elapsed < 2 ^ 32` ms have really passed since the poll at `lastSensorRead`, so
that `millis()` reads `(lastSensorRead + elapsed) mod 2 ^ 32`, then `loop` makes a forced
measurement iff `elapsed ≥ 5000`, also when the counter wrapped in between. -/
theorem loop_due_across_wraparound {F : Type} (pf : Platform F) (env : LoopEnv F)
    (d : Device F) (elapsed : Nat) (hlast : d.lastSensorRead < 2 ^ 32)
    (helapsed : elapsed < 2 ^ 32)
    (hnow : env.millis = (d.lastSensorRead + elapsed) % 2 ^ 32) :
    ((loop pf env d).forcedMeasurements = 1 ↔ elapsed ≥ 5000)
      ∧ ((loop pf env d).forcedMeasurements = 0 ↔ elapsed < 5000)
      ∧ (sub32 env.millis d.lastSensorRead ≥ delayTime ↔ elapsed ≥ 5000) := by
  have hsub : sub32 (env.millis % 2 ^ 32) d.lastSensorRead = elapsed := by
    rw [hnow, Nat.mod_mod]; exact sub32_add_elapsed _ _ hlast helapsed
  have hsub' : sub32 env.millis d.lastSensorRead = elapsed := by
    rw [hnow]; exact sub32_add_elapsed _ _ hlast helapsed
  rw [hsub']
  by_cases h : elapsed ≥ 5000
  · have h' : sub32 (env.millis % 2 ^ 32) d.lastSensorRead ≥ delayTime := by
      rw [hsub]; exact h
    rw [loop_of_due pf env d h']
    exact ⟨⟨fun _ => h, fun _ => rfl⟩,
      ⟨fun h0 => (Nat.one_ne_zero h0).elim, fun hn => by omega⟩, Iff.rfl⟩
  · have h' : ¬ sub32 (env.millis % 2 ^ 32) d.lastSensorRead ≥ delayTime := by
      rw [hsub]; exact h
    rw [loop_of_not_due pf env d h']
    exact ⟨⟨fun h0 => (Nat.zero_ne_one h0).elim, fun hn => absurd hn h⟩,
      ⟨fun _ => by omega, fun _ => rfl⟩, Iff.rfl⟩

/-- The theorem `loop_due_across_wraparound` applied across a wrap: 6000 ms after a poll
at 4294966296 the counter reads 5000. -/
theorem loop_due_across_wraparound_witness :
    (sampleDevice 4294966296).lastSensorRead < 2 ^ 32 ∧ 6000 < 2 ^ 32
      ∧ (sampleLoopEnv none 5000).millis
          = ((sampleDevice 4294966296).lastSensorRead + 6000) % 2 ^ 32
      ∧ ((loop samplePlatform (sampleLoopEnv none 5000) (sampleDevice 4294966296)).forcedMeasurements = 1 ↔ 6000 ≥ 5000)
      ∧ ((loop samplePlatform (sampleLoopEnv none 5000) (sampleDevice 4294966296)).forcedMeasurements = 0 ↔ 6000 < 5000)
      ∧ (sub32 (sampleLoopEnv none 5000).millis (sampleDevice 4294966296).lastSensorRead ≥ delayTime ↔ 6000 ≥ 5000) :=
  ⟨by decide, by decide, by decide,
    loop_due_across_wraparound samplePlatform (sampleLoopEnv none 5000)
      (sampleDevice 4294966296) 6000 (by decide) (by decide) (by decide)⟩

/-! ## The observation endpoint -/

/-- C4: the document `handleObservation` builds has `device_id` equal to `deviceId`,
`temperature_celsius`, `humidity_percent` and `pressure_hpa` equal to the three cached
values, and `last_read_ms` equal to `lastSensorRead`. -/
theorem handleObservation_reflects_snapshot {F : Type} (pf : Platform F) (clock : Clock)
    (d : Device F) :
    ∃ doc : JsonDocument F,
      (handleObservation pf clock d).body = Body.json doc
        ∧ (handleObservation pf clock d).status = 200
        ∧ doc.get? "device_id" = some (JsonValue.str d.deviceId)
        ∧ doc.get? "temperature_celsius" = some (JsonValue.float d.temperature)
        ∧ doc.get? "humidity_percent" = some (JsonValue.float d.humidity)
        ∧ doc.get? "pressure_hpa" = some (JsonValue.float d.pressure)
        ∧ doc.get? "last_read_ms" = some (JsonValue.uint d.lastSensorRead) := by
  rw [handleObservation_eq]
  refine ⟨_, rfl, rfl, ?_⟩
  cases clock.getLocalTime <;> simp [JsonDocument.get?, List.lookup]

/-- The snapshot `(23.5, 45.0, 1013.2)` stored at time 60000 is served as is. -/
theorem handleObservation_sample :
    (handleObservation samplePlatform ⟨1700000000, none⟩ (sampleDevice 60000)).body =
      Body.json
        [("device_id", JsonValue.str (sampleDevice 60000).deviceId),
          ("temperature_celsius", JsonValue.float 23.5),
          ("humidity_percent", JsonValue.float 45.0),
          ("pressure_hpa", JsonValue.float 1013.2),
          ("timestamp", JsonValue.int 1700000000),
          ("last_read_ms", JsonValue.uint 60000)] := by
  rw [handleObservation_eq]
  rfl

/-- C5: the document `handleObservation` builds has the key `timestamp_iso` exactly when
`getLocalTime` succeeds, and in either case has `timestamp` (the value of `time`),
`device_id`, `temperature_celsius`, `humidity_percent`, `pressure_hpa` and
`last_read_ms`. -/
theorem handleObservation_timestamp_iso {F : Type} (pf : Platform F) (clock : Clock)
    (d : Device F) :
    ∃ doc : JsonDocument F,
      (handleObservation pf clock d).body = Body.json doc
        ∧ (doc.containsKey "timestamp_iso" = true ↔ clock.getLocalTime.isSome = true)
        ∧ doc.containsKey "timestamp_iso" = clock.getLocalTime.isSome
        ∧ doc.containsKey "timestamp" = true
        ∧ doc.get? "timestamp" = some (JsonValue.int clock.time)
        ∧ doc.containsKey "device_id" = true
        ∧ doc.containsKey "temperature_celsius" = true
        ∧ doc.containsKey "humidity_percent" = true
        ∧ doc.containsKey "pressure_hpa" = true
        ∧ doc.containsKey "last_read_ms" = true := by
  rw [handleObservation_eq]
  refine ⟨_, rfl, ?_⟩
  cases clock.getLocalTime <;> simp [JsonDocument.containsKey, JsonDocument.get?, List.lookup]

/-! ## Routing -/

/-- C8, as stated, fails for a request that is not a GET: after a successful boot, a POST
to `/api/v1/observation` matches no route, is answered by `handleNotFound` with status
404, and that response carries no `Access-Control-Allow-Origin` header. -/
theorem observation_post_lacks_cors :
    (setup samplePlatform sampleBootEnv (Device.initial 0 ⟨[]⟩)).outcome = Outcome.ready
      ∧ (loop samplePlatform
          (sampleLoopEnv (some ⟨HTTPMethod.HTTP_POST, "/api/v1/observation"⟩) 1000)
          (sampleDevice 0)).response = some ⟨404, "text/plain", [], Body.text "Not Found"⟩
      ∧ ¬ ∃ r : Response Rat,
          (loop samplePlatform
            (sampleLoopEnv (some ⟨HTTPMethod.HTTP_POST, "/api/v1/observation"⟩) 1000)
            (sampleDevice 0)).response = some r
          ∧ ("Access-Control-Allow-Origin", "*") ∈ r.headers := by
  have hresp := response_after_setup samplePlatform sampleBootEnv 0 ⟨[]⟩ sampleBoot_ready
    (sampleDevice 0) rfl
    (sampleLoopEnv (some ⟨HTTPMethod.HTTP_POST, "/api/v1/observation"⟩) 1000)
    ⟨HTTPMethod.HTTP_POST, "/api/v1/observation"⟩ rfl
  simp only [reduceCtorEq, false_and, if_false] at hresp
  refine ⟨sampleBoot_ready, hresp, ?_⟩
  rintro ⟨r, hr, hmem⟩
  rw [hresp] at hr
  cases hr
  simp [handleNotFound] at hmem

/-- C8, amended: after a boot that reached the route registration, every GET request for
`/api/v1/observation` is answered by `handleObservation` with status 200 and the headers
`Access-Control-Allow-Origin: *`, `Access-Control-Allow-Methods: GET, OPTIONS` and
`Access-Control-Allow-Headers: Content-Type`, whatever the device state. -/
theorem observation_get_has_cors {F : Type} (pf : Platform F) (benv : BootEnv) (zero : F)
    (preferences : Preferences)
    (hready : (setup pf benv (Device.initial zero preferences)).outcome = Outcome.ready)
    (d : Device F)
    (hserver : d.server = (setup pf benv (Device.initial zero preferences)).device.server)
    (env : LoopEnv F) (req : Request) (hpending : env.pending = some req)
    (hmethod : req.method = HTTPMethod.HTTP_GET) (hpath : req.uri = "/api/v1/observation") :
    ∃ r : Response F,
      (loop pf env d).response = some r
        ∧ r = handleObservation pf env.clock d
        ∧ r.status = 200
        ∧ ("Access-Control-Allow-Origin", "*") ∈ r.headers
        ∧ ("Access-Control-Allow-Methods", "GET, OPTIONS") ∈ r.headers
        ∧ ("Access-Control-Allow-Headers", "Content-Type") ∈ r.headers := by
  refine ⟨handleObservation pf env.clock d, ?_, rfl, ?_⟩
  · rw [response_after_setup pf benv zero preferences hready d hserver env req hpending]
    simp [hmethod, hpath]
  · rw [handleObservation_eq]
    simp

/-- The theorem `observation_get_has_cors` applied to `GET /api/v1/observation` on the
sample device. -/
theorem observation_get_has_cors_witness :
    (setup samplePlatform sampleBootEnv (Device.initial 0 ⟨[]⟩)).outcome = Outcome.ready
      ∧ (sampleDevice 0).server
          = (setup samplePlatform sampleBootEnv (Device.initial 0 ⟨[]⟩)).device.server
      ∧ ∃ r : Response Rat,
      (loop samplePlatform (sampleLoopEnv (some ⟨HTTPMethod.HTTP_GET, "/api/v1/observation"⟩) 1000) (sampleDevice 0)).response = some r
        ∧ r = handleObservation samplePlatform (sampleLoopEnv (some ⟨HTTPMethod.HTTP_GET, "/api/v1/observation"⟩) 1000).clock (sampleDevice 0)
        ∧ r.status = 200
        ∧ ("Access-Control-Allow-Origin", "*") ∈ r.headers
        ∧ ("Access-Control-Allow-Methods", "GET, OPTIONS") ∈ r.headers
        ∧ ("Access-Control-Allow-Headers", "Content-Type") ∈ r.headers :=
  ⟨sampleBoot_ready, rfl,
    observation_get_has_cors samplePlatform sampleBootEnv 0 ⟨[]⟩ sampleBoot_ready
      (sampleDevice 0) rfl
      (sampleLoopEnv (some ⟨HTTPMethod.HTTP_GET, "/api/v1/observation"⟩) 1000)
      ⟨HTTPMethod.HTTP_GET, "/api/v1/observation"⟩ rfl rfl rfl⟩

/-- C9: after a boot that reached the route registration, every request whose path is
neither `/` nor `/api/v1/observation` is dispatched to `handleNotFound`, and the response
has status 404, content type `text/plain` and body `Not Found`, whatever the method and
the device state. -/
theorem unknown_path_not_found {F : Type} (pf : Platform F) (benv : BootEnv) (zero : F)
    (preferences : Preferences)
    (hready : (setup pf benv (Device.initial zero preferences)).outcome = Outcome.ready)
    (d : Device F)
    (hserver : d.server = (setup pf benv (Device.initial zero preferences)).device.server)
    (env : LoopEnv F) (req : Request) (hpending : env.pending = some req)
    (hroot : req.uri ≠ "/") (hobservation : req.uri ≠ "/api/v1/observation") :
    d.server.select req = some Handler.handleNotFound
      ∧ (loop pf env d).response = some handleNotFound
      ∧ (loop pf env d).response = some ⟨404, "text/plain", [], Body.text "Not Found"⟩ := by
  have hsel : d.server.select req = some Handler.handleNotFound := by
    rw [hserver, setup_server_of_ready pf benv _ hready,
      select_after_setup _ _ (rfl : (Device.initial zero preferences).server.routes = [])]
    simp [hroot, hobservation]
  have hresp := response_after_setup pf benv zero preferences hready d hserver env req hpending
  simp only [hroot, hobservation, and_false, if_false] at hresp
  exact ⟨hsel, hresp, hresp⟩

/-- The theorem `unknown_path_not_found` applied to `GET /unknown` on the sample device. -/
theorem unknown_path_not_found_witness :
    (setup samplePlatform sampleBootEnv (Device.initial 0 ⟨[]⟩)).outcome = Outcome.ready
      ∧ "/unknown" ≠ "/" ∧ "/unknown" ≠ "/api/v1/observation"
      ∧ (sampleDevice 0).server.select ⟨HTTPMethod.HTTP_GET, "/unknown"⟩ = some Handler.handleNotFound
      ∧ (loop samplePlatform (sampleLoopEnv (some ⟨HTTPMethod.HTTP_GET, "/unknown"⟩) 1000) (sampleDevice 0)).response = some handleNotFound
      ∧ (loop samplePlatform (sampleLoopEnv (some ⟨HTTPMethod.HTTP_GET, "/unknown"⟩) 1000) (sampleDevice 0)).response = some ⟨404, "text/plain", [], Body.text "Not Found"⟩ :=
  ⟨sampleBoot_ready, by decide, by decide,
    unknown_path_not_found samplePlatform sampleBootEnv 0 ⟨[]⟩ sampleBoot_ready
      (sampleDevice 0) rfl (sampleLoopEnv (some ⟨HTTPMethod.HTTP_GET, "/unknown"⟩) 1000)
      ⟨HTTPMethod.HTTP_GET, "/unknown"⟩ rfl (by decide) (by decide)⟩

/-! ## Provisioning failure -/

/-- C6: in a boot that reaches `autoConnect` (a sensor answered), a failed `autoConnect`
is followed by exactly `delay(3000)` and then `ESP.restart()`: the trace ends with these
two calls, holds one restart, and holds no NTP, mDNS or HTTP-route call, and no route is
registered; the restart is made 3000 ms after `autoConnect` returned, hence within
20 s + 180 s + 3 s of the `autoConnect` call (made at time 100) when `autoConnect` took
at most 20 s + 180 s.  A successful `autoConnect` leads to no restart. -/
theorem setup_provisioning_contract {F : Type} (pf : Platform F) (env : BootEnv)
    (d : Device F) (hsensor : env.bmeBegin76 = true ∨ env.bmeBegin77 = true) :
    (env.autoConnect = false →
        (setup pf env d).outcome = Outcome.restarted
          ∧ (∃ pre : List Event,
              (setup pf env d).trace =
                pre ++ [⟨100, Action.autoConnect
                          ("ESP32-Monitor-" ++ (setup pf env d).device.deviceId)
                          "password123"⟩,
                        ⟨100 + env.autoConnectMs, Action.delay 3000⟩,
                        ⟨100 + env.autoConnectMs + 3000, Action.restart⟩]
                ∧ ∀ e ∈ pre, e.time ≤ 100 ∧ e.action ≠ Action.restart)
          ∧ restartCount (setup pf env d).trace = 1
          ∧ (∀ e ∈ (setup pf env d).trace, e.action.isServiceSetup = false)
          ∧ (setup pf env d).device.server = d.server
          ∧ (env.autoConnectMs ≤ 20 * 1000 + 180 * 1000 →
              ∀ e ∈ (setup pf env d).trace, e.action = Action.restart →
                e.time = 100 + env.autoConnectMs + 3000
                  ∧ e.time - 100 ≤ 20 * 1000 + 180 * 1000 + 3000))
      ∧ (env.autoConnect = true →
          (setup pf env d).outcome = Outcome.ready
            ∧ restartCount (setup pf env d).trace = 0) := by
  constructor
  · intro hfail
    obtain ⟨h1, ⟨pre, hpre, hpre'⟩, h3, h4, h5, _⟩ :=
      setup_of_autoConnect_failure pf env d hsensor hfail
    refine ⟨h1, ⟨pre, hpre, hpre'⟩, h3, h4, h5, ?_⟩
    intro hms e he hact
    rw [hpre] at he
    simp only [List.mem_append, List.mem_cons, List.mem_singleton, List.not_mem_nil,
      or_false] at he
    rcases he with he | he | he | he
    · exact absurd hact (hpre' e he).2
    · rw [he] at hact; cases hact
    · rw [he] at hact; cases hact
    · rw [he]
      refine ⟨rfl, ?_⟩
      show 100 + env.autoConnectMs + 3000 - 100 ≤ 20 * 1000 + 180 * 1000 + 3000
      omega
  · intro hok
    obtain ⟨h1, h2⟩ := setup_of_autoConnect_success pf env d hsensor hok
    refine ⟨h1, ?_⟩
    unfold restartCount
    rw [List.length_eq_zero, List.filter_eq_nil_iff]
    intro e he
    simpa using h2 e he

/-- The theorem `setup_provisioning_contract` applied to a boot whose `autoConnect` fails
after the full 200 s. -/
theorem setup_provisioning_contract_witness :
    (failingBootEnv.bmeBegin76 = true ∨ failingBootEnv.bmeBegin77 = true)
      ∧ (failingBootEnv.autoConnect = false →
        (setup samplePlatform failingBootEnv (Device.initial 0 ⟨[]⟩)).outcome = Outcome.restarted
          ∧ (∃ pre : List Event,
              (setup samplePlatform failingBootEnv (Device.initial 0 ⟨[]⟩)).trace =
                pre ++ [⟨100, Action.autoConnect
                          ("ESP32-Monitor-" ++ (setup samplePlatform failingBootEnv (Device.initial 0 ⟨[]⟩)).device.deviceId)
                          "password123"⟩,
                        ⟨100 + failingBootEnv.autoConnectMs, Action.delay 3000⟩,
                        ⟨100 + failingBootEnv.autoConnectMs + 3000, Action.restart⟩]
                ∧ ∀ e ∈ pre, e.time ≤ 100 ∧ e.action ≠ Action.restart)
          ∧ restartCount (setup samplePlatform failingBootEnv (Device.initial 0 ⟨[]⟩)).trace = 1
          ∧ (∀ e ∈ (setup samplePlatform failingBootEnv (Device.initial 0 ⟨[]⟩)).trace, e.action.isServiceSetup = false)
          ∧ (setup samplePlatform failingBootEnv (Device.initial 0 ⟨[]⟩)).device.server = (Device.initial 0 ⟨[]⟩).server
          ∧ (failingBootEnv.autoConnectMs ≤ 20 * 1000 + 180 * 1000 →
              ∀ e ∈ (setup samplePlatform failingBootEnv (Device.initial 0 ⟨[]⟩)).trace, e.action = Action.restart →
                e.time = 100 + failingBootEnv.autoConnectMs + 3000
                  ∧ e.time - 100 ≤ 20 * 1000 + 180 * 1000 + 3000))
      ∧ (failingBootEnv.autoConnect = true →
          (setup samplePlatform failingBootEnv (Device.initial 0 ⟨[]⟩)).outcome = Outcome.ready
            ∧ restartCount (setup samplePlatform failingBootEnv (Device.initial 0 ⟨[]⟩)).trace = 0) :=
  ⟨Or.inl rfl,
    setup_provisioning_contract samplePlatform failingBootEnv (Device.initial 0 ⟨[]⟩)
      (Or.inl rfl)⟩

end Esp32Monitor
